import Mathlib

/-!
Shallow embedding of the credential-verification path of `src/auth.ts`:
the zod credential schema, the lazily initialized database handle
(`getDb`), the user lookup (`getUser`), and the `authorize` callback of
the Credentials provider.  External libraries are modelled at their
observable behaviour: the zod email/password schema is translated into
executable string checks, `bcrypt.compare` is an opaque boolean-valued
parameter, and the postgres query `SELECT * FROM users WHERE email=...`
is a filter over an explicit list of stored rows.
-/

namespace AuthService

/-- Value of one field of the raw, untrusted credentials mapping handed to
`authorize`: either a string, or a value of some non-string type. -/
inductive JValue where
  | str : String → JValue
  | other : JValue
  deriving DecidableEq, Repr

/-- Raw credentials as received by the `authorize` callback (`credentials`
argument, src/auth.ts line 36): each of the two fields the zod schema reads
is either absent or bound to a value. -/
structure RawCredentials where
  email : Option JValue
  password : Option JValue
  deriving DecidableEq, Repr

/-- Validated credentials: the `parsedCredentials.data` produced by a
successful `safeParse` (src/auth.ts line 42). -/
structure Credentials where
  email : String
  password : String
  deriving DecidableEq, Repr

/-- Character class of the local part of the zod email grammar
(`z.string().email()`): ASCII letters and digits, underscore, apostrophe
(codepoint 39), plus, hyphen and dot. -/
def localChar (c : Char) : Bool :=
  c.isAlphanum || c = '_' || c = Char.ofNat 39 || c = '+' || c = '-' || c = '.'

/-- Characters allowed as the final character of the local part of the zod
email grammar: like `localChar` but without dot and apostrophe. -/
def localLastChar (c : Char) : Bool :=
  c.isAlphanum || c = '_' || c = '+' || c = '-'

/-- True when the character list contains no two consecutive dots
(the negative lookahead of the zod email grammar). -/
def noDoubleDot : List Char → Bool
  | a :: b :: rest => !(a = '.' && b = '.') && noDoubleDot (b :: rest)
  | _ => true

/-- Splits a character list at every occurrence of the separator; the
separator is dropped, and adjacent separators produce empty pieces. -/
def splitOnChar (sep : Char) : List Char → List (List Char)
  | [] => [[]]
  | c :: rest =>
      match splitOnChar sep rest with
      | [] => if c = sep then [[], []] else [[c]]
      | h :: t => if c = sep then [] :: h :: t else (c :: h) :: t

/-- Local-part check of the zod email grammar: nonempty, drawn from
`localChar`, not starting with a dot, not ending with a dot or apostrophe,
and with no two consecutive dots. -/
def localOk (cs : List Char) : Bool :=
  !cs.isEmpty
    && cs.all localChar
    && (match cs.getLast? with | some c => localLastChar c | none => false)
    && (match cs.head? with | some c => !(c = '.') | none => false)
    && noDoubleDot cs

/-- Domain-label check of the zod email grammar: starts with a letter or
digit, continues with letters, digits or hyphens. -/
def labelOk (cs : List Char) : Bool :=
  match cs with
  | [] => false
  | c :: rest => c.isAlphanum && rest.all (fun d => d.isAlphanum || d = '-')

/-- Top-level-domain check of the zod email grammar: at least two
characters, all letters. -/
def tldOk (cs : List Char) : Bool :=
  decide (2 ≤ cs.length) && cs.all Char.isAlpha

/-- Domain check of the zod email grammar: one or more labels followed by a
top-level domain, separated by dots. -/
def domainOk (cs : List Char) : Bool :=
  let parts := splitOnChar '.' cs
  decide (2 ≤ parts.length)
    && parts.dropLast.all labelOk
    && (match parts.getLast? with | some t => tldOk t | none => false)

/-- Email grammar of `z.string().email()` (src/auth.ts line 38): exactly one
at-sign separating a valid local part from a valid domain. -/
def zodEmailCheck (s : String) : Bool :=
  match splitOnChar '@' s.toList with
  | [lp, dom] => localOk lp && domainOk dom
  | _ => false

/-- Reading one field of the raw mapping as a string, the way the zod
object schema does: present and of string type, or failure. -/
def parseStr : Option JValue → Option String
  | some (.str s) => some s
  | _ => none

/-- The zod schema `z.object({ email: z.string().email(), password:
z.string().min(6) }).safeParse(credentials)` (src/auth.ts lines 37-39):
both fields must be present strings, the email must match the email
grammar, and the password must have length at least 6; any failure yields
the single failure value `none`. -/
def safeParse (raw : RawCredentials) : Option Credentials :=
  match parseStr raw.email, parseStr raw.password with
  | some e, some p =>
      if zodEmailCheck e ∧ 6 ≤ p.length then some ⟨e, p⟩ else none
  | _, _ => none

/-- A stored user row (the `User` type of the repository: id, name, email,
and `password` holding the salted bcrypt hash). -/
structure User where
  id : String
  name : String
  email : String
  password : String
  deriving DecidableEq, Repr

/-- State of the storage layer as seen by one call: either reachable with
its current rows, or failing (connection error, timeout). -/
inductive Storage where
  | available : List User → Storage
  | unavailable : Storage
  deriving DecidableEq, Repr

/-- The parameterized query `SELECT * FROM users WHERE email=${email}`
(src/auth.ts line 24): the rows of the users table whose email equals the
argument, in table order. -/
def queryUsersByEmail (email : String) (db : List User) : List User :=
  db.filter (fun u => u.email == email)

/-- A lazily initialized connection handle (the `sql` variable of
src/auth.ts line 10). -/
structure Conn where
  url : String
  deriving DecidableEq, Repr

/-- The `getDb` function (src/auth.ts lines 12-20), with the environment
variable `POSTGRES_URL` and the cached `sql` handle made explicit: returns
the thrown error or the connection, paired with the new cached state.  When
the environment variable is absent it throws before assigning `sql`, so the
cached state is returned unchanged. -/
def getDb (env : Option String) (sql : Option Conn) :
    Except String Conn × Option Conn :=
  match sql with
  | some c => (.ok c, some c)
  | none =>
      match env with
      | none => (.error "POSTGRES_URL environment variable is not set", none)
      | some url => (.ok ⟨url⟩, some (⟨url⟩ : Conn))

/-- The `getUser` function (src/auth.ts lines 22-30): on storage failure
the catch block rethrows `Error('Failed to fetch user.')`; otherwise it
returns `user[0]` of the query result — the first row when one exists,
`undefined` (here `none`) when the result set is empty. -/
def getUser (email : String) (st : Storage) : Except String (Option User) :=
  match st with
  | .unavailable => .error "Failed to fetch user."
  | .available db => .ok (queryUsersByEmail email db).head?

/-- Observable outcome of one `authorize` invocation together with its
effect counts: `result` is the thrown error or the returned value
(`some user` or `null`), `lookups` counts calls to `getUser`, and
`compares` counts calls to `bcrypt.compare`. -/
structure AuthTrace where
  result : Except String (Option User)
  lookups : Nat
  compares : Nat
  deriving Repr

/-- The `authorize` callback (src/auth.ts lines 36-51), parameterized by
the behaviour of `bcrypt.compare`: validate with `safeParse`; on failure
fall through to `return null`; otherwise call `getUser` (whose exception
propagates), `return null` when no user is found, compare the password
against the stored hash, and return the user on a match or fall through to
`return null` on a mismatch. -/
def authorize (compare : String → String → Bool) (raw : RawCredentials)
    (st : Storage) : AuthTrace :=
  match safeParse raw with
  | none => ⟨.ok none, 0, 0⟩
  | some creds =>
      match getUser creds.email st with
      | .error e => ⟨.error e, 1, 0⟩
      | .ok none => ⟨.ok none, 1, 0⟩
      | .ok (some user) =>
          if compare creds.password user.password
          then ⟨.ok (some user), 1, 1⟩
          else ⟨.ok none, 1, 1⟩

/-- Helper: membership in the email query result is membership in the table
with the matching email. -/
theorem mem_queryUsersByEmail {e : String} {db : List User} {u : User} :
    u ∈ queryUsersByEmail e db ↔ u ∈ db ∧ u.email = e := by
  simp [queryUsersByEmail, List.mem_filter]

/-- Helper: when validation fails, `authorize` performs no lookup and no
comparison and returns null. -/
theorem authorize_parse_fail {compare : String → String → Bool}
    {raw : RawCredentials} {st : Storage} (h : safeParse raw = none) :
    authorize compare raw st = ⟨.ok none, 0, 0⟩ := by
  simp [authorize, h]

/-- Helper: when no stored row has the requested email, the query result is
empty. -/
theorem query_nil_of_no_match {e : String} {db : List User}
    (hno : ∀ r ∈ db, r.email ≠ e) : queryUsersByEmail e db = [] := by
  apply List.filter_eq_nil_iff.mpr
  intro r hr
  simp [hno r hr]

/-- Helper: on a validated input whose email matches no stored row,
`authorize` does one lookup, no comparison, and returns null. -/
theorem authorize_no_user {compare : String → String → Bool}
    {raw : RawCredentials} {e p : String} {db : List User}
    (h : safeParse raw = some ⟨e, p⟩) (hno : ∀ r ∈ db, r.email ≠ e) :
    authorize compare raw (.available db) = ⟨.ok none, 1, 0⟩ := by
  simp [authorize, h, getUser, query_nil_of_no_match hno]

/-- Helper: with unique emails in the table, the first (and only) row of
the query for a stored user's email is that user. -/
theorem queryHead_unique {e : String} {db : List User} {u : User}
    (hu : u ∈ db) (he : u.email = e)
    (huniq : ∀ r1 ∈ db, ∀ r2 ∈ db, r1.email = r2.email → r1 = r2) :
    (queryUsersByEmail e db).head? = some u := by
  have humem : u ∈ queryUsersByEmail e db := mem_queryUsersByEmail.mpr ⟨hu, he⟩
  cases hq : queryUsersByEmail e db with
  | nil => rw [hq] at humem; cases humem
  | cons r rest =>
      have hr : r ∈ queryUsersByEmail e db := by
        rw [hq]; exact List.mem_cons_self r rest
      obtain ⟨hrdb, hre⟩ := mem_queryUsersByEmail.mp hr
      have hru : r = u := huniq r hrdb u hu (by rw [hre, he])
      simp [hru]

/-- Helper: absent email field fails validation. -/
theorem safeParse_email_none {raw : RawCredentials} (h : raw.email = none) :
    safeParse raw = none := by
  obtain ⟨em, pw⟩ := raw
  change em = none at h
  subst h
  rfl

/-- Helper: absent password field fails validation. -/
theorem safeParse_pw_none {raw : RawCredentials} (h : raw.password = none) :
    safeParse raw = none := by
  obtain ⟨em, pw⟩ := raw
  change pw = none at h
  subst h
  rcases em with _ | v
  · rfl
  · rcases v with s | _ <;> rfl

/-- Helper: non-string email field fails validation. -/
theorem safeParse_email_other {raw : RawCredentials}
    (h : raw.email = some .other) : safeParse raw = none := by
  obtain ⟨em, pw⟩ := raw
  change em = some JValue.other at h
  subst h
  rfl

/-- Helper: non-string password field fails validation. -/
theorem safeParse_pw_other {raw : RawCredentials}
    (h : raw.password = some .other) : safeParse raw = none := by
  obtain ⟨em, pw⟩ := raw
  change pw = some JValue.other at h
  subst h
  rcases em with _ | v
  · rfl
  · rcases v with s | _ <;> rfl

/-- Helper: an email string outside the email grammar fails validation. -/
theorem safeParse_bad_email {raw : RawCredentials} {e : String}
    (h : raw.email = some (.str e)) (hbad : zodEmailCheck e = false) :
    safeParse raw = none := by
  obtain ⟨em, pw⟩ := raw
  change em = some (JValue.str e) at h
  subst h
  rcases pw with _ | v
  · rfl
  · rcases v with q | _
    · show (if zodEmailCheck e ∧ 6 ≤ q.length then some ⟨e, q⟩ else none)
        = (none : Option Credentials)
      rw [if_neg]
      exact fun hc => by simp [hbad] at hc
    · rfl

/-- Helper: a password string shorter than 6 fails validation. -/
theorem safeParse_short_pw {raw : RawCredentials} {q : String}
    (h : raw.password = some (.str q)) (hshort : q.length < 6) :
    safeParse raw = none := by
  obtain ⟨em, pw⟩ := raw
  change pw = some (JValue.str q) at h
  subst h
  rcases em with _ | v
  · rfl
  · rcases v with e | _
    · show (if zodEmailCheck e ∧ 6 ≤ q.length then some ⟨e, q⟩ else none)
        = (none : Option Credentials)
      rw [if_neg]
      exact fun hc => absurd hc.2 (Nat.not_le.mpr hshort)
    · rfl

/-- C1: for every valid-shaped input whose email matches a stored user
record (emails being unique in storage, per the data model) and whose
password verifies against that record's stored hash, `authorize` returns
that user, whose email equals the input email. -/
theorem authorize_valid_correct (compare : String → String → Bool)
    (raw : RawCredentials) (db : List User) (e p : String) (u : User)
    (hparse : safeParse raw = some ⟨e, p⟩)
    (hu : u ∈ db) (he : u.email = e)
    (hmatch : compare p u.password = true)
    (huniq : ∀ r1 ∈ db, ∀ r2 ∈ db, r1.email = r2.email → r1 = r2) :
    (authorize compare raw (.available db)).result = .ok (some u)
      ∧ u.email = e := by
  refine ⟨?_, he⟩
  simp [authorize, hparse, getUser, queryHead_unique hu he huniq, hmatch]

/-- Witness for C1 at a concrete store and comparator. -/
theorem authorize_valid_correct_witness :
    (authorize (fun q h => q == "123456" && h == "hash1")
        ⟨some (.str "user@example.com"), some (.str "123456")⟩
        (.available [⟨"u1", "Alice", "user@example.com", "hash1"⟩])).result
      = .ok (some ⟨"u1", "Alice", "user@example.com", "hash1"⟩)
    ∧ (User.mk "u1" "Alice" "user@example.com" "hash1").email
      = "user@example.com" :=
  authorize_valid_correct (fun q h => q == "123456" && h == "hash1")
    ⟨some (.str "user@example.com"), some (.str "123456")⟩
    [⟨"u1", "Alice", "user@example.com", "hash1"⟩]
    "user@example.com" "123456" ⟨"u1", "Alice", "user@example.com", "hash1"⟩
    (by decide) (by decide) (by decide) (by decide) (by decide)

/-- C2: for every valid-shaped input, if no stored row has the input email,
or every stored row with that email fails password verification,
`authorize` returns null (Rejected). -/
theorem authorize_rejects (compare : String → String → Bool)
    (raw : RawCredentials) (db : List User) (e p : String)
    (hparse : safeParse raw = some ⟨e, p⟩)
    (h : (∀ r ∈ db, r.email ≠ e)
       ∨ (∀ r ∈ db, r.email = e → compare p r.password = false)) :
    (authorize compare raw (.available db)).result = .ok none := by
  cases h with
  | inl hno => rw [authorize_no_user hparse hno]
  | inr hbad =>
      cases hql : queryUsersByEmail e db with
      | nil => simp [authorize, hparse, getUser, hql]
      | cons r rest =>
          have hr : r ∈ queryUsersByEmail e db := by
            rw [hql]; exact List.mem_cons_self r rest
          obtain ⟨hrdb, hre⟩ := mem_queryUsersByEmail.mp hr
          simp [authorize, hparse, getUser, hql, hbad r hrdb hre]

/-- Witness for C2: valid-shaped input against an empty store. -/
theorem authorize_rejects_witness :
    (authorize (fun _ _ => true)
        ⟨some (.str "user@example.com"), some (.str "123456")⟩
        (.available [])).result = .ok none :=
  authorize_rejects (fun _ _ => true)
    ⟨some (.str "user@example.com"), some (.str "123456")⟩ []
    "user@example.com" "123456" (by decide) (Or.inl (by decide))

/-- C3: every raw input missing a field, with a non-string field, with an
email outside the email grammar, or with a password shorter than 6 fails
validation, and `authorize` returns its uniform malformed-input result
(the null return of the validation-failure path). -/
theorem authorize_malformed (compare : String → String → Bool)
    (raw : RawCredentials) (st : Storage)
    (h : raw.email = none ∨ raw.password = none
       ∨ raw.email = some .other ∨ raw.password = some .other
       ∨ (∃ e, raw.email = some (.str e) ∧ zodEmailCheck e = false)
       ∨ (∃ q, raw.password = some (.str q) ∧ q.length < 6)) :
    safeParse raw = none ∧ (authorize compare raw st).result = .ok none := by
  have hsp : safeParse raw = none := by
    rcases h with h | h | h | h | ⟨e, he, hbad⟩ | ⟨q, hq, hshort⟩
    · exact safeParse_email_none h
    · exact safeParse_pw_none h
    · exact safeParse_email_other h
    · exact safeParse_pw_other h
    · exact safeParse_bad_email he hbad
    · exact safeParse_short_pw hq hshort
  exact ⟨hsp, by rw [authorize_parse_fail hsp]⟩

/-- Witness for C3: input with the email field absent. -/
theorem authorize_malformed_witness :
    safeParse ⟨none, some (.str "123456")⟩ = none
    ∧ (authorize (fun _ _ => true) ⟨none, some (.str "123456")⟩
        (.available [])).result = .ok none :=
  authorize_malformed (fun _ _ => true) ⟨none, some (.str "123456")⟩
    (.available []) (Or.inl rfl)

/-- C4 counterexample: a malformed input and a valid-shaped rejected input
produce the very same caller-visible value (null), so the MalformedInput
outcome is not distinguishable by the caller from the Rejected outcome. -/
theorem authorize_outcome_conflation_cex :
    safeParse ⟨some (.str "not-an-email"), some (.str "123456")⟩ = none
    ∧ safeParse ⟨some (.str "user@example.com"), some (.str "123456")⟩
        = some ⟨"user@example.com", "123456"⟩
    ∧ (authorize (fun _ _ => false)
          ⟨some (.str "not-an-email"), some (.str "123456")⟩
          (.available [])).result
      = (authorize (fun _ _ => false)
          ⟨some (.str "user@example.com"), some (.str "123456")⟩
          (.available [])).result :=
  ⟨rfl, rfl, rfl⟩

/-- C4 amended: every invocation yields the user or the single null value;
malformed input and rejected credentials are both realized as the same
null result, indistinguishable to the caller. -/
theorem authorize_null_conflation (compare : String → String → Bool)
    (raw1 raw2 : RawCredentials) (st1 : Storage) (db : List User)
    (e p : String)
    (h1 : safeParse raw1 = none)
    (h2 : safeParse raw2 = some ⟨e, p⟩)
    (hno : ∀ r ∈ db, r.email ≠ e) :
    (authorize compare raw1 st1).result = .ok none
    ∧ (authorize compare raw2 (.available db)).result = .ok none
    ∧ (authorize compare raw1 st1).result
      = (authorize compare raw2 (.available db)).result := by
  rw [authorize_parse_fail h1, authorize_no_user h2 hno]
  exact ⟨rfl, rfl, rfl⟩

/-- Witness for the amended C4 at concrete inputs. -/
theorem authorize_null_conflation_witness :
    (authorize (fun _ _ => false)
        ⟨some (.str "not-an-email"), some (.str "123456")⟩
        (.available [⟨"u1", "Alice", "user@example.com", "hash1"⟩])).result
      = .ok none
    ∧ (authorize (fun _ _ => false)
        ⟨some (.str "other@example.com"), some (.str "123456")⟩
        (.available [⟨"u1", "Alice", "user@example.com", "hash1"⟩])).result
      = .ok none
    ∧ (authorize (fun _ _ => false)
        ⟨some (.str "not-an-email"), some (.str "123456")⟩
        (.available [⟨"u1", "Alice", "user@example.com", "hash1"⟩])).result
      = (authorize (fun _ _ => false)
        ⟨some (.str "other@example.com"), some (.str "123456")⟩
        (.available [⟨"u1", "Alice", "user@example.com", "hash1"⟩])).result :=
  authorize_null_conflation (fun _ _ => false)
    ⟨some (.str "not-an-email"), some (.str "123456")⟩
    ⟨some (.str "other@example.com"), some (.str "123456")⟩
    (.available [⟨"u1", "Alice", "user@example.com", "hash1"⟩])
    [⟨"u1", "Alice", "user@example.com", "hash1"⟩]
    "other@example.com" "123456" (by decide) (by decide) (by decide)

/-- C5 counterexample: on success `authorize` returns the full stored row,
whose `password` field is the stored hash, unredacted. -/
theorem authorize_hash_exposed_cex :
    (authorize (fun _ _ => true)
        ⟨some (.str "user@example.com"), some (.str "123456")⟩
        (.available [⟨"u1", "Alice", "user@example.com", "hash1"⟩])).result
      = .ok (some ⟨"u1", "Alice", "user@example.com", "hash1"⟩)
    ∧ (User.mk "u1" "Alice" "user@example.com" "hash1").password = "hash1" :=
  ⟨rfl, rfl⟩

/-- C5 amended: every successful `authorize` returns a row of the store
itself — the full record, password hash included — after its hash verified
against the input password. -/
theorem authorize_returns_full_record (compare : String → String → Bool)
    (raw : RawCredentials) (st : Storage) (u : User)
    (h : (authorize compare raw st).result = .ok (some u)) :
    ∃ db e p, st = .available db ∧ u ∈ db ∧ safeParse raw = some ⟨e, p⟩
      ∧ u.email = e ∧ compare p u.password = true := by
  cases hsp : safeParse raw with
  | none => rw [authorize_parse_fail hsp] at h; simp at h
  | some creds =>
      obtain ⟨e, p⟩ := creds
      cases st with
      | unavailable => simp [authorize, hsp, getUser] at h
      | available db =>
          cases hql : queryUsersByEmail e db with
          | nil => simp [authorize, hsp, getUser, hql] at h
          | cons r rest =>
              have hr : r ∈ queryUsersByEmail e db := by
                rw [hql]; exact List.mem_cons_self r rest
              obtain ⟨hrdb, hre⟩ := mem_queryUsersByEmail.mp hr
              by_cases hc : compare p r.password
              · have hur : r = u := by
                  simp [authorize, hsp, getUser, hql, hc] at h
                  exact h
                subst hur
                exact ⟨db, e, p, rfl, hrdb, rfl, hre, hc⟩
              · simp [authorize, hsp, getUser, hql, hc] at h

/-- Witness for the amended C5 at a concrete store. -/
theorem authorize_returns_full_record_witness :
    ∃ db e p,
      (Storage.available [⟨"u1", "Alice", "user@example.com", "hash1"⟩]
        : Storage) = .available db
      ∧ (User.mk "u1" "Alice" "user@example.com" "hash1") ∈ db
      ∧ safeParse ⟨some (.str "user@example.com"), some (.str "123456")⟩
          = some ⟨e, p⟩
      ∧ (User.mk "u1" "Alice" "user@example.com" "hash1").email = e
      ∧ (fun _ _ => true : String → String → Bool) p
          (User.mk "u1" "Alice" "user@example.com" "hash1").password = true :=
  authorize_returns_full_record (fun _ _ => true)
    ⟨some (.str "user@example.com"), some (.str "123456")⟩
    (.available [⟨"u1", "Alice", "user@example.com", "hash1"⟩])
    ⟨"u1", "Alice", "user@example.com", "hash1"⟩ rfl

/-- C6 counterexample: on a valid-shaped input with no matching user the
code performs zero hash comparisons, while the found-user path performs
one — no dummy comparison equalizes the two paths. -/
theorem authorize_no_dummy_compare_cex :
    safeParse ⟨some (.str "user@example.com"), some (.str "123456")⟩
      = some ⟨"user@example.com", "123456"⟩
    ∧ (authorize (fun _ _ => true)
        ⟨some (.str "user@example.com"), some (.str "123456")⟩
        (.available [])).compares = 0
    ∧ (authorize (fun _ _ => true)
        ⟨some (.str "user@example.com"), some (.str "123456")⟩
        (.available [⟨"u1", "Alice", "user@example.com", "hash1"⟩])).compares
      = 1 :=
  ⟨rfl, rfl, rfl⟩

/-- C6 amended: when no user is found for a valid-shaped input, `authorize`
returns null having performed no password-hash comparison at all. -/
theorem authorize_not_found_no_compare (compare : String → String → Bool)
    (raw : RawCredentials) (db : List User) (e p : String)
    (h1 : safeParse raw = some ⟨e, p⟩)
    (hno : ∀ r ∈ db, r.email ≠ e) :
    (authorize compare raw (.available db)).result = .ok none
    ∧ (authorize compare raw (.available db)).compares = 0 := by
  rw [authorize_no_user h1 hno]
  exact ⟨rfl, rfl⟩

/-- Witness for the amended C6 at a concrete input. -/
theorem authorize_not_found_no_compare_witness :
    (authorize (fun _ _ => true)
        ⟨some (.str "user@example.com"), some (.str "123456")⟩
        (.available [])).result = .ok none
    ∧ (authorize (fun _ _ => true)
        ⟨some (.str "user@example.com"), some (.str "123456")⟩
        (.available [])).compares = 0 :=
  authorize_not_found_no_compare (fun _ _ => true)
    ⟨some (.str "user@example.com"), some (.str "123456")⟩ []
    "user@example.com" "123456" (by decide) (by decide)

/-- C7: during a storage-layer failure the lookup yields the distinct
fetch-failure error, never the not-found value; an available store never
yields that error; and `authorize` propagates the failure rather than
converting it into the null Rejected result. -/
theorem getUser_storage_failure (compare : String → String → Bool)
    (raw : RawCredentials) (e p : String)
    (h : safeParse raw = some ⟨e, p⟩) :
    getUser e .unavailable = .error "Failed to fetch user."
    ∧ getUser e .unavailable ≠ .ok none
    ∧ (∀ db : List User,
        getUser e (.available db) ≠ .error "Failed to fetch user.")
    ∧ (authorize compare raw .unavailable).result
        = .error "Failed to fetch user."
    ∧ (authorize compare raw .unavailable).result ≠ .ok none := by
  refine ⟨rfl, by simp [getUser], fun db => by simp [getUser], ?_, ?_⟩
  · simp [authorize, h, getUser]
  · simp [authorize, h, getUser]

/-- Witness for C7 at a concrete valid-shaped input. -/
theorem getUser_storage_failure_witness :
    getUser "user@example.com" .unavailable = .error "Failed to fetch user."
    ∧ getUser "user@example.com" .unavailable ≠ .ok none
    ∧ (∀ db : List User,
        getUser "user@example.com" (.available db)
          ≠ .error "Failed to fetch user.")
    ∧ (authorize (fun _ _ => true)
        ⟨some (.str "user@example.com"), some (.str "123456")⟩
        .unavailable).result = .error "Failed to fetch user."
    ∧ (authorize (fun _ _ => true)
        ⟨some (.str "user@example.com"), some (.str "123456")⟩
        .unavailable).result ≠ .ok none :=
  getUser_storage_failure (fun _ _ => true)
    ⟨some (.str "user@example.com"), some (.str "123456")⟩
    "user@example.com" "123456" (by decide)

/-- C8: on input that fails validation, `authorize` performs no storage
lookup and no hash comparison (validation is a pure check that runs
first). -/
theorem authorize_invalid_no_side_effects (compare : String → String → Bool)
    (raw : RawCredentials) (st : Storage)
    (h : safeParse raw = none) :
    (authorize compare raw st).lookups = 0
    ∧ (authorize compare raw st).compares = 0 := by
  rw [authorize_parse_fail h]
  exact ⟨rfl, rfl⟩

/-- Witness for C8: a malformed email reaches neither the store nor the
hash comparison. -/
theorem authorize_invalid_no_side_effects_witness :
    (authorize (fun _ _ => true)
        ⟨some (.str "not-an-email"), some (.str "123456")⟩
        (.available [⟨"u1", "Alice", "user@example.com", "hash1"⟩])).lookups
      = 0
    ∧ (authorize (fun _ _ => true)
        ⟨some (.str "not-an-email"), some (.str "123456")⟩
        (.available [⟨"u1", "Alice", "user@example.com", "hash1"⟩])).compares
      = 0 :=
  authorize_invalid_no_side_effects (fun _ _ => true)
    ⟨some (.str "not-an-email"), some (.str "123456")⟩
    (.available [⟨"u1", "Alice", "user@example.com", "hash1"⟩]) (by decide)

/-- C9: with the connection string absent and the handle uninitialized,
`getDb` throws its configuration error and leaves the cached handle
untouched, so a later call made once the connection string is set
initializes the connection normally. -/
theorem getDb_failed_init_state (url : String) :
    (getDb none none).1
      = .error "POSTGRES_URL environment variable is not set"
    ∧ (getDb none none).2 = none
    ∧ getDb (some url) (getDb none none).2 = (.ok ⟨url⟩, some ⟨url⟩) :=
  ⟨rfl, rfl, rfl⟩

/-- C10: `getUser` on an available store returns the not-found value when
the query yields no rows, and the first row (silently discarding the rest)
when it yields two or more — duplicate emails raise no error. -/
theorem getUser_first_row (e : String) (db : List User) :
    (queryUsersByEmail e db = [] → getUser e (.available db) = .ok none)
    ∧ ∀ u v rest, queryUsersByEmail e db = u :: v :: rest →
        getUser e (.available db) = .ok (some u) := by
  constructor
  · intro hq
    simp [getUser, hq]
  · intro u v rest hq
    simp [getUser, hq]

/-- Witness for C10: a store with two rows sharing one email. -/
theorem getUser_first_row_witness :
    getUser "a@b.co"
        (.available [⟨"u1", "A", "a@b.co", "h1"⟩, ⟨"u2", "B", "a@b.co", "h2"⟩])
      = .ok (some ⟨"u1", "A", "a@b.co", "h1"⟩)
    ∧ getUser "z@b.co"
        (.available [⟨"u1", "A", "a@b.co", "h1"⟩, ⟨"u2", "B", "a@b.co", "h2"⟩])
      = .ok none :=
  ⟨(getUser_first_row "a@b.co"
      [⟨"u1", "A", "a@b.co", "h1"⟩, ⟨"u2", "B", "a@b.co", "h2"⟩]).2
      ⟨"u1", "A", "a@b.co", "h1"⟩ ⟨"u2", "B", "a@b.co", "h2"⟩ [] (by decide),
   (getUser_first_row "z@b.co"
      [⟨"u1", "A", "a@b.co", "h1"⟩, ⟨"u2", "B", "a@b.co", "h2"⟩]).1 (by decide)⟩

end AuthService

